import Mathlib

/-!
Shallow embedding of `download_inaturalist_images_orig.py`.

The script is a linear batch pipeline: read `observations.csv`, fetch each
observation's JSON from the iNaturalist API, build one record per photo,
project/rename a fixed column set with pandas, and download each photo.
JSON objects reachable by the script are modelled as ordered association
lists of string keys to `JVal` values; Python dict `get`/`[]`/`update`
semantics are modelled by the `alist*` operations below.  Console prints
and the fixed rate-limit sleeps are not part of the data contract and are
not modelled; file and network side effects are modelled as an explicit
`Effect` trace.
-/

namespace INat

/-- A Python/JSON value as it occurs in the dictionaries the script touches.
`letter c` stands for the one-character Python string `chr c` produced by
`retrieve_image_letter` (Python's `chr` is injective on valid code points,
so a dedicated constructor keeps that injectivity); `null` is JSON null /
Python `None`. -/
inductive JVal : Type where
  | s (v : String)
  | n (v : Int)
  | letter (code : Nat)
  | null
deriving DecidableEq, Repr

/-- Ordered association list modelling a Python dict (JSON object). -/
abbrev Dict := List (String × JVal)

/-- First-match lookup, modelling Python `d.get(k)` / `d[k]` presence. -/
def alistFind? {α : Type} (d : List (String × α)) (k : String) : Option α :=
  match d.find? (fun p => p.1 == k) with
  | some p => some p.2
  | none => none

/-- Python `d.get(k, dflt)`. -/
def alistGet {α : Type} (d : List (String × α)) (k : String) (dflt : α) : α :=
  (alistFind? d k).getD dflt

/-- Python `d[k] = v`: replace in place when the key is present, else append
(Python dicts preserve insertion order). -/
def alistSet {α : Type} (d : List (String × α)) (k : String) (v : α) :
    List (String × α) :=
  if (d.find? (fun p => p.1 == k)).isSome then
    d.map (fun p => if p.1 == k then (k, v) else p)
  else d ++ [(k, v)]

/-- Python `d.update(u)`: set every pair of `u` in order (later pairs win,
as when a JSON object with duplicate keys is parsed into a dict). -/
def alistUpdate {α : Type} (d u : List (String × α)) : List (String × α) :=
  u.foldl (fun acc p => alistSet acc p.1 p.2) d

/-- Python `str.replace(pat, rep)` on character lists: replace every
non-overlapping occurrence, scanning left to right; the `Nat` argument is
fuel (structural recursion), always called with enough. -/
def pyReplaceAux (pat rep : List Char) : Nat → List Char → List Char
  | 0, s => s
  | _ + 1, [] => []
  | fuel + 1, c :: cs =>
    if (c :: cs).take pat.length = pat then
      rep ++ pyReplaceAux pat rep fuel ((c :: cs).drop pat.length)
    else
      c :: pyReplaceAux pat rep fuel cs

/-- Python `s.replace(pat, rep)` (all occurrences). -/
def pyReplace (s pat rep : String) : String :=
  String.mk (pyReplaceAux pat.data rep.data (s.data.length + 1) s.data)

/-- One entry of `observation_field_values[i]["observation_field"]`. -/
structure ObsFieldInner : Type where
  name : Option String
deriving DecidableEq, Repr

/-- One entry of `observation_field_values`: a custom field/value pair. -/
structure ObsField : Type where
  observation_field : Option ObsFieldInner
  value : Option String
deriving DecidableEq, Repr

/-- One entry of `observation_photos`: the script reads its
`observation_id` and its nested `photo` sub-object. -/
structure PhotoEntry : Type where
  observation_id : Option JVal
  photo : Option Dict
deriving DecidableEq, Repr

/-- The JSON body returned for one observation; both top-level lists are
optional (the script supplies `[]` defaults via `get`). -/
structure Obs : Type where
  observation_photos : Option (List PhotoEntry)
  observation_field_values : Option (List ObsField)
deriving DecidableEq, Repr

/-- The nested field name lookup of source line 37, with its two dict-get
defaults (empty dict, empty string). -/
def fieldName (f : ObsField) : String :=
  match f.observation_field with
  | some inner => inner.name.getD ""
  | none => ""

/-- Loop body of `retrieve_collector_number` (source lines 36-39). -/
def retrieve_collector_number_fields : List ObsField → String
  | [] => "No_Collector_Number"
  | f :: rest =>
    if fieldName f = "Collector Number" then
      pyReplace (f.value.getD "No_Collector_Number") " " "_"
    else retrieve_collector_number_fields rest

/-- `retrieve_collector_number` (source lines 33-39). -/
def retrieve_collector_number (obs : Obs) : String :=
  retrieve_collector_number_fields (obs.observation_field_values.getD [])

/-- The global `collector_numbers` dict; the stored one-character string
`chr c` is represented by its code point `c`. -/
abbrev CNMap := List (String × Nat)

/-- `retrieve_image_letter` (source lines 25-31): the stored value is a
non-empty string, hence always truthy, so `collector_numbers.get(cn, None)`
being truthy is exactly the key being present.  Returns the updated map and
the code point of the returned character (`ord 'A' = 65`). -/
def retrieve_image_letter (m : CNMap) (cn : String) : CNMap × Nat :=
  match alistFind? m cn with
  | some c => (alistSet m cn (c + 1), c + 1)
  | none => (alistSet m cn 65, 65)

/-- Source lines 61-62: the fresh one-key photo_data dict holding the
entry's observation_id, updated with the nested photo sub-object. -/
def mergedPhotoData (pe : PhotoEntry) : Dict :=
  alistUpdate [("observation_id", pe.observation_id.getD JVal.null)]
    (pe.photo.getD [])

/-- The large_url lookup of source line 63 (default: empty string); the
following `.replace` requires a string, so a large_url that is JSON null
or a number raises AttributeError in the source (unhandled, aborts the
batch). -/
def largeUrlString (d : Dict) : Except String String :=
  match alistGet d "large_url" (JVal.s "") with
  | JVal.s u => Except.ok u
  | JVal.letter c => Except.ok (String.singleton (Char.ofNat c))
  | _ => Except.error "AttributeError: replace on non-string large_url"

/-- `photo_data` after source lines 63-64: `original_size_url` is the
large_url with the substring "large" replaced by "original", and
`collector_number` is `retrieve_collector_number(obs)`. -/
def photoDataStage (obs : Obs) (pe : PhotoEntry) (lu : String) : Dict :=
  alistSet
    (alistSet (mergedPhotoData pe) "original_size_url"
      (JVal.s (pyReplace lu "large" "original")))
    "collector_number" (JVal.s (retrieve_collector_number obs))

/-- Body of the inner photo loop (source lines 60-69) for one photo.
`col_num` is the value computed once per observation on line 59 and is
passed in, exactly as in the source.  The sentinel branch reads
the id key of photo_data with bracket access (KeyError when absent). -/
def processPhoto (m : CNMap) (col_num : String) (obs : Obs) (pe : PhotoEntry) :
    Except String (CNMap × Dict) :=
  match largeUrlString (mergedPhotoData pe) with
  | Except.error e => Except.error e
  | Except.ok lu =>
    let pd := photoDataStage obs pe lu
    if col_num = "No_Collector_Number" then
      match alistFind? pd "id" with
      | some v => Except.ok (m, alistSet pd "photo_identifier" v)
      | none => Except.error "KeyError: id"
    else
      match alistFind? pd "collector_number" with
      | some (JVal.s cn) =>
        let r := retrieve_image_letter m cn
        Except.ok (r.1, alistSet pd "photo_identifier" (JVal.letter r.2))
      | _ => Except.error "TypeError: collector_number is not a string"

/-- The inner photo loop over a photo list, threading the global
`collector_numbers` map and collecting records in encounter order. -/
def processPhotos (m : CNMap) (col_num : String) (obs : Obs) :
    List PhotoEntry → Except String (CNMap × List Dict)
  | [] => Except.ok (m, [])
  | pe :: rest =>
    match processPhoto m col_num obs pe with
    | Except.error e => Except.error e
    | Except.ok (m1, d) =>
      match processPhotos m1 col_num obs rest with
      | Except.error e => Except.error e
      | Except.ok (m2, ds) => Except.ok (m2, d :: ds)

/-- One outer-loop iteration (source lines 58-69): extract the photo list
and collector number, then run the photo loop. -/
def processObservation (m : CNMap) (obs : Obs) :
    Except String (CNMap × List Dict) :=
  processPhotos m (retrieve_collector_number obs) obs
    (obs.observation_photos.getD [])

/-- The Photo Resolver over a list of fetched observation bodies, in input
order, accumulating records exactly as the source appends to `images`. -/
def resolveAll (m : CNMap) : List Obs → Except String (CNMap × List Dict)
  | [] => Except.ok (m, [])
  | o :: rest =>
    match processObservation m o with
    | Except.error e => Except.error e
    | Except.ok (m1, ds) =>
      match resolveAll m1 rest with
      | Except.error e => Except.error e
      | Except.ok (m2, ds2) => Except.ok (m2, ds ++ ds2)

/-- `keep_columns` (source lines 79-86). -/
def keep_columns : List String :=
  ["observation_id", "id", "collector_number", "photo_identifier",
   "created_at", "updated_at",
   "native_page_url", "native_username", "license", "subtype",
   "native_original_image_url",
   "license_code", "attribution", "license_name", "license_url",
   "type", "original_size_url"]

/-- `rename_columns` (source lines 88-94). -/
def rename_columns : List (String × String) :=
  [("id", "photo_id"),
   ("native_page_url", "inaturalist_page_url"),
   ("native_username", "inaturalist_username"),
   ("native_original_image_url", "original_image_url"),
   ("original_size_url", "image_url")]

/-- `DataFrame.rename(columns=rename_columns)` on one column label. -/
def renameColumn (c : String) : String :=
  ((rename_columns.find? (fun p => p.1 == c)).map (fun p => p.2)).getD c

/-- The columns of `pd.DataFrame(rows)` built from a list of dicts: the
union of the dicts' keys in order of first appearance. -/
def dfColumns (rows : List Dict) : List String :=
  rows.foldl
    (fun acc d =>
      d.foldl (fun acc2 p => if acc2.contains p.1 then acc2 else acc2 ++ [p.1])
        acc)
    []

/-- Error raised by `images_df[keep_columns]` when a requested column is
missing from the frame (in particular when `images` is empty, since
`pd.DataFrame([])` has no columns at all). -/
def metadataProjectionError : String :=
  "KeyError: keep_columns not in DataFrame columns"

/-- The in-memory table after selection and renaming; a cell is `none`
where the record lacks the key (pandas NaN). -/
structure Table : Type where
  header : List String
  rows : List (List (Option JVal))
deriving DecidableEq, Repr

/-- Source lines 96-98: `pd.DataFrame(images)`, column selection with
`keep_columns` (KeyError when any is absent), then header renaming.  Note
the source never writes this table to disk. -/
def buildMetadata (images : List Dict) : Except String Table :=
  if keep_columns.all (fun c => (dfColumns images).contains c) then
    Except.ok
      ⟨keep_columns.map renameColumn,
       images.map (fun d => keep_columns.map (fun c => alistFind? d c))⟩
  else Except.error metadataProjectionError

/-- Python `str(x)` as used by the format call of the download loop when
it builds filenames. -/
def pyFormat : JVal → String
  | JVal.s u => u
  | JVal.n v => toString v
  | JVal.letter c => String.singleton (Char.ofNat c)
  | JVal.null => "None"

/-- Python truthiness of the values that can reach `if image_url:`. -/
def pyTruthy : JVal → Bool
  | JVal.s u => u ≠ ""
  | JVal.n v => v ≠ 0
  | JVal.letter _ => true
  | JVal.null => false

/-- Observable side effects of the script (prints and sleeps omitted). -/
inductive Effect : Type where
  | networkGet (url : String)
  | writeFile (name : String)
  | download (url : String) (dest : String)
deriving DecidableEq, Repr

/-- Source line 115: the images/ filename formatted from the collector
number and photo identifier, with the two dict-get defaults (the string
Unknown) of lines 113-114. -/
def imageName (img : Dict) : String :=
  "images/" ++ pyFormat (alistGet img "collector_number" (JVal.s "Unknown")) ++
    "_" ++ pyFormat (alistGet img "photo_identifier" (JVal.s "Unknown")) ++
    ".jpg"

/-- Source lines 116-118: download when the record's original_size_url is
truthy, otherwise silently do nothing. -/
def fetchEffect (img : Dict) : List Effect :=
  let url := alistGet img "original_size_url" JVal.null
  if pyTruthy url then [Effect.download (pyFormat url) (imageName img)]
  else []

/-- The download loop (source lines 112-123) over the records in the order
they were resolved. -/
def downloadEffects (images : List Dict) : List Effect :=
  images.flatMap fetchEffect

/-- Source line 56: the templated per-observation detail endpoint. -/
def obsUrl (i : Int) : String :=
  "https://www.inaturalist.org/observations/" ++ toString i ++ ".json"

/-- The resolver loop including its network effects: one GET per
observation id, issued before the body is processed, so a crash keeps the
GETs already made. -/
def resolveRun (api : Int → Obs) (m : CNMap) :
    List Int → List Effect × Except String (CNMap × List Dict)
  | [] => ([], Except.ok (m, []))
  | i :: rest =>
    let eff := Effect.networkGet (obsUrl i)
    match processObservation m (api i) with
    | Except.error e => ([eff], Except.error e)
    | Except.ok (m1, ds) =>
      let r := resolveRun api m1 rest
      (eff :: r.1,
       match r.2 with
       | Except.error e => Except.error e
       | Except.ok (m2, ds2) => Except.ok (m2, ds ++ ds2))

/-- The program's environment: the optional `id` column of
`observations.csv` (`none` models a missing file) and the JSON body the
API returns for each id. -/
structure Env : Type where
  observations_csv : Option (List Int)
  api : Int → Obs

/-- How a run ends: normally; via the early `exit()` printed for a missing
`observations.csv` (source lines 42-46); or by an unhandled exception. -/
inductive Outcome : Type where
  | completed
  | missingInputExit
  | crashed (msg : String)
deriving DecidableEq, Repr

/-- A whole run: its final outcome and its effect trace in order. -/
structure RunResult : Type where
  outcome : Outcome
  effects : List Effect
deriving DecidableEq, Repr

/-- The whole script.  Note there is no `writeFile` effect anywhere on the
success path: the source builds and renames `images_df` (lines 96-98) but
never calls `to_csv`, despite printing that the metadata was outputted. -/
def runProgram (env : Env) : RunResult :=
  match env.observations_csv with
  | none => ⟨Outcome.missingInputExit, []⟩
  | some ids =>
    let r := resolveRun env.api [] ids
    match r.2 with
    | Except.error e => ⟨Outcome.crashed e, r.1⟩
    | Except.ok (_, images) =>
      match buildMetadata images with
      | Except.error e => ⟨Outcome.crashed e, r.1⟩
      | Except.ok _ => ⟨Outcome.completed, r.1 ++ downloadEffects images⟩

deriving instance DecidableEq for Except

/-- The photo-identifier values (of any shape) that ended up attached to a
given collector number, in record order. -/
def groupIdents (cn : String) (imgs : List Dict) : List JVal :=
  imgs.filterMap (fun d =>
    if alistFind? d "collector_number" = some (JVal.s cn) then
      alistFind? d "photo_identifier"
    else none)

/-- The code points of the letter identifiers in a collector number's
group, in record order. -/
def lettersFor (cn : String) (imgs : List Dict) : List Nat :=
  (groupIdents cn imgs).filterMap
    (fun v => match v with | JVal.letter c => some c | _ => none)

/-- Consecutive letter code points starting after `start` letters have
been used: `65 + start, 65 + start + 1, ...` (`65 = ord 'A'`). -/
def lettersList (start len : Nat) : List Nat :=
  (List.range len).map (fun i => 65 + start + i)

/-- How many letters have been handed out for a collector number, read off
the `collector_numbers` map (code `c` stored means `c - 64` letters). -/
def cnCount (m : CNMap) (cn : String) : Nat :=
  match alistFind? m cn with
  | some c => c - 64
  | none => 0

/-- Every stored code is at least `ord 'A'`; holds for the initial empty
map and is preserved by `retrieve_image_letter`. -/
def goodMap (m : CNMap) : Prop :=
  ∀ cn c, alistFind? m cn = some c → 65 ≤ c

/-- The code point `retrieve_image_letter` would return next for a
collector number: successor of the stored code, or `ord 'A'` when the
collector number has not been seen. -/
def nextLetterCode (m : CNMap) (cn : String) : Nat :=
  match alistFind? m cn with
  | some c => c + 1
  | none => 65

/-- The record a single photo-loop iteration produces, `none` when the
iteration would raise. -/
def photoRecordOf (m : CNMap) (col_num : String) (obs : Obs)
    (pe : PhotoEntry) : Option Dict :=
  match processPhoto m col_num obs pe with
  | Except.ok r => some r.2
  | Except.error _ => none

/-- The full record list of a resolver run started on the empty
`collector_numbers` map, `[]` when the run raises. -/
def resolvedImages (obsList : List Obs) : List Dict :=
  match resolveAll [] obsList with
  | Except.ok r => r.2
  | Except.error _ => []

/-- The in-memory metadata table of a run, `none` when projection raises. -/
def metadataTableOf (obsList : List Obs) : Option Table :=
  match buildMetadata (resolvedImages obsList) with
  | Except.ok t => some t
  | Except.error _ => none

/-- Modelled from the spec: "`original_size_url` equals `large_url` with
the first occurrence of \"large\" replaced by \"original\"" — replacement
of only the FIRST occurrence, for comparison against the source's
replace-all.  Not part of the source. -/
def replaceFirstChars (pat rep : List Char) : List Char → List Char
  | [] => []
  | c :: cs =>
    if (c :: cs).take pat.length = pat then rep ++ (c :: cs).drop pat.length
    else c :: replaceFirstChars pat rep cs

/-- Modelled from the spec: first-occurrence-only string replacement. -/
def replaceFirstSpec (s pat rep : String) : String :=
  String.mk (replaceFirstChars pat.data rep.data s.data)

/-! Concrete inputs used by witnesses and counterexamples. -/

/-- An observation field carrying Collector Number "AB 12". -/
def wField : ObsField := ⟨some ⟨some "Collector Number"⟩, some "AB 12"⟩

/-- A bare photo entry whose nested photo has only an id. -/
def wPhoto1 : PhotoEntry := ⟨none, some [("id", JVal.n 7)]⟩

/-- A second bare photo entry. -/
def wPhoto2 : PhotoEntry := ⟨none, some [("id", JVal.n 8)]⟩

/-- An observation with collector number "AB 12" and two photos. -/
def wObs : Obs := ⟨some [wPhoto1, wPhoto2], some [wField]⟩

/-- The `collector_numbers` map after resolving `wObs` from scratch. -/
def wMap : CNMap := [("AB_12", 66)]

/-- The record of `wObs`'s first photo. -/
def wD1 : Dict :=
  [("observation_id", JVal.null), ("id", JVal.n 7),
   ("original_size_url", JVal.s ""), ("collector_number", JVal.s "AB_12"),
   ("photo_identifier", JVal.letter 65)]

/-- The record of `wObs`'s second photo. -/
def wD2 : Dict :=
  [("observation_id", JVal.null), ("id", JVal.n 8),
   ("original_size_url", JVal.s ""), ("collector_number", JVal.s "AB_12"),
   ("photo_identifier", JVal.letter 66)]

/-- The records of a run over `[wObs]`. -/
def wImgs : List Dict := [wD1, wD2]

/-- Photo entry whose large_url contains "large" twice. -/
def c2pe : PhotoEntry :=
  ⟨some (JVal.n 300),
   some [("id", JVal.n 9),
         ("large_url", JVal.s "https://host/photos/large/large.jpg")]⟩

/-- Observation holding `c2pe` and no custom fields. -/
def c2obs : Obs := ⟨some [c2pe], none⟩

/-- Photo entry for the replace-all witness. -/
def c2wpe : PhotoEntry :=
  ⟨none, some [("id", JVal.n 1), ("large_url", JVal.s "x/large.jpg")]⟩

/-- Observation holding `c2wpe` and no custom fields. -/
def c2wobs : Obs := ⟨none, none⟩

/-- The record resolved from `c2wpe` (sentinel collector number). -/
def c2wd : Dict :=
  [("observation_id", JVal.null), ("id", JVal.n 1),
   ("large_url", JVal.s "x/large.jpg"),
   ("original_size_url", JVal.s "x/original.jpg"),
   ("collector_number", JVal.s "No_Collector_Number"),
   ("photo_identifier", JVal.n 1)]

/-- The record resolved from `c3pe` (produced twice when `c3obs` is
resolved twice). -/
def c3d : Dict :=
  [("observation_id", JVal.n 100), ("id", JVal.n 5),
   ("original_size_url", JVal.s ""),
   ("collector_number", JVal.s "No_Collector_Number"),
   ("photo_identifier", JVal.n 5)]

/-- Photo entry with photo id 5, for the sentinel-collision counterexample. -/
def c3pe : PhotoEntry := ⟨some (JVal.n 100), some [("id", JVal.n 5)]⟩

/-- Observation without a Collector Number field holding `c3pe`; resolving
it twice reuses photo id 5 in the sentinel group. -/
def c3obs : Obs := ⟨some [c3pe], none⟩

/-- Photo entry with a single-occurrence large_url, for the fetch witness. -/
def c8pe : PhotoEntry :=
  ⟨none, some [("id", JVal.n 9),
               ("large_url", JVal.s "http://h/9/large.jpg")]⟩

/-- Observation without a Collector Number field holding `c8pe`. -/
def c8obs : Obs := ⟨some [c8pe], none⟩

/-- The record resolved from `c8obs`. -/
def c8d : Dict :=
  [("observation_id", JVal.null), ("id", JVal.n 9),
   ("large_url", JVal.s "http://h/9/large.jpg"),
   ("original_size_url", JVal.s "http://h/9/original.jpg"),
   ("collector_number", JVal.s "No_Collector_Number"),
   ("photo_identifier", JVal.n 9)]

/-- Nested photo dict supplying every kept source column. -/
def c1photoDict : Dict :=
  [("id", JVal.n 555), ("created_at", JVal.s "2020-01-01"),
   ("updated_at", JVal.s "2020-01-02"),
   ("native_page_url", JVal.s "http://inat/p/555"),
   ("native_username", JVal.s "user"), ("license", JVal.s "CC"),
   ("subtype", JVal.null), ("native_original_image_url", JVal.null),
   ("license_code", JVal.s "cc-by"), ("attribution", JVal.s "(c) user"),
   ("license_name", JVal.s "CC BY"), ("license_url", JVal.s "http://cc"),
   ("type", JVal.s "LocalPhoto"),
   ("large_url", JVal.s "http://static/photos/555/large.jpg")]

/-- Photo entry wrapping `c1photoDict`. -/
def c1pe : PhotoEntry := ⟨some (JVal.n 100), some c1photoDict⟩

/-- Observation whose single photo supplies every kept column. -/
def c1obs : Obs := ⟨some [c1pe], none⟩

/-- Environment: `observations.csv` lists id 100, the API returns
`c1obs`. -/
def c1env : Env := ⟨some [100], fun _ => c1obs⟩

/-- Environment whose single observation has an empty photo list. -/
def c9env : Env := ⟨some [1], fun _ => ⟨some [], none⟩⟩

/-- Environment with the input file missing. -/
def c7env : Env := ⟨none, fun _ => ⟨none, none⟩⟩

/-- Custom field "Collector Number" whose value is the empty string. -/
def c10field : ObsField := ⟨some ⟨some "Collector Number"⟩, some ""⟩

/-- Observation with an empty-string collector number and two photos. -/
def c10obs : Obs := ⟨some [wPhoto1, wPhoto2], some [c10field]⟩

/-- The `collector_numbers` map after resolving `c10obs` from scratch. -/
def c10m : CNMap := [("", 66)]

/-- Record of `c10obs`'s first photo. -/
def c10d1 : Dict :=
  [("observation_id", JVal.null), ("id", JVal.n 7),
   ("original_size_url", JVal.s ""), ("collector_number", JVal.s ""),
   ("photo_identifier", JVal.letter 65)]

/-- Record of `c10obs`'s second photo. -/
def c10d2 : Dict :=
  [("observation_id", JVal.null), ("id", JVal.n 8),
   ("original_size_url", JVal.s ""), ("collector_number", JVal.s ""),
   ("photo_identifier", JVal.letter 66)]

/-- The records of resolving `c10obs`. -/
def c10ds : List Dict := [c10d1, c10d2]

/-! Lemmas about the dict operations. -/

theorem alistFind?_cons {α : Type} (p : String × α) (rest : List (String × α))
    (k : String) :
    alistFind? (p :: rest) k =
      if p.1 == k then some p.2 else alistFind? rest k := by
  unfold alistFind?
  cases hp : p.1 == k <;> simp [List.find?_cons, hp]

theorem find?_map_set {α : Type} (d : List (String × α)) (k : String) (v : α) :
    (d.map (fun p => if p.1 == k then (k, v) else p)).find?
        (fun p => p.1 == k) =
      (d.find? (fun p => p.1 == k)).map (fun _ => (k, v)) := by
  induction d with
  | nil => rfl
  | cons q rest ih =>
    by_cases hq : (q.1 == k) = true
    · rw [List.map_cons, if_pos hq]
      simp only [List.find?_cons, hq, beq_self_eq_true]
      rfl
    · rw [List.map_cons, if_neg hq]
      rw [Bool.not_eq_true] at hq
      simp only [List.find?_cons, hq]
      exact ih

theorem find?_map_set_ne {α : Type} (d : List (String × α)) (k k' : String)
    (v : α) (hne : k' ≠ k) :
    (d.map (fun p => if p.1 == k then (k, v) else p)).find?
        (fun p => p.1 == k') =
      d.find? (fun p => p.1 == k') := by
  have hkk' : ((k : String) == k') = false := by
    simp only [beq_eq_false_iff_ne]
    exact Ne.symm hne
  induction d with
  | nil => rfl
  | cons q rest ih =>
    by_cases hq : (q.1 == k) = true
    · have hq1 : q.1 = k := by simpa using hq
      have hqk' : (q.1 == k') = false := by rw [hq1]; exact hkk'
      rw [List.map_cons, if_pos hq]
      simp only [List.find?_cons, hqk', hkk']
      exact ih
    · rw [List.map_cons, if_neg hq]
      cases hq' : (q.1 == k') with
      | true =>
        simp only [List.find?_cons, hq']
      | false =>
        simp only [List.find?_cons, hq']
        exact ih

theorem alistFind?_set_self {α : Type} (d : List (String × α)) (k : String)
    (v : α) : alistFind? (alistSet d k v) k = some v := by
  unfold alistSet
  split
  next h =>
    unfold alistFind?
    rw [find?_map_set]
    obtain ⟨p, hp⟩ := Option.isSome_iff_exists.mp h
    rw [hp]
    rfl
  next h =>
    have hn : d.find? (fun p => p.1 == k) = none :=
      Option.not_isSome_iff_eq_none.mp (by simpa using h)
    unfold alistFind?
    rw [List.find?_append, hn]
    simp

theorem alistFind?_set_ne {α : Type} (d : List (String × α)) (k k' : String)
    (v : α) (hne : k' ≠ k) :
    alistFind? (alistSet d k v) k' = alistFind? d k' := by
  unfold alistSet
  split
  next =>
    unfold alistFind?
    rw [find?_map_set_ne d k k' v hne]
  next =>
    unfold alistFind?
    rw [List.find?_append]
    have : (([(k, v)] : List (String × α)).find? (fun p => p.1 == k')) =
        none := by
      simp; exact fun e => hne e.symm
    rw [this]
    cases d.find? (fun p => p.1 == k') <;> rfl

theorem retrieve_image_letter_spec (m : CNMap) (cn : String) :
    retrieve_image_letter m cn =
      (alistSet m cn (nextLetterCode m cn), nextLetterCode m cn) := by
  unfold retrieve_image_letter nextLetterCode
  cases alistFind? m cn <;> rfl

/-- Splitting a successful photo-loop iteration into its two branches. -/
theorem processPhoto_ok_elim {m : CNMap} {col_num : String} {obs : Obs}
    {pe : PhotoEntry} {m' : CNMap} {d : Dict}
    (h : processPhoto m col_num obs pe = Except.ok (m', d)) :
    ∃ lu, largeUrlString (mergedPhotoData pe) = Except.ok lu ∧
      ((col_num = "No_Collector_Number" ∧ m' = m ∧
        ∃ v, alistFind? (photoDataStage obs pe lu) "id" = some v ∧
          d = alistSet (photoDataStage obs pe lu) "photo_identifier" v) ∨
       (col_num ≠ "No_Collector_Number" ∧
        ∃ code,
          retrieve_image_letter m (retrieve_collector_number obs) =
            (m', code) ∧
          d = alistSet (photoDataStage obs pe lu) "photo_identifier"
                (JVal.letter code))) := by
  unfold processPhoto at h
  cases hlu : largeUrlString (mergedPhotoData pe) with
  | error e => rw [hlu] at h; cases h
  | ok lu =>
    rw [hlu] at h
    simp only at h
    refine ⟨lu, rfl, ?_⟩
    by_cases hc : col_num = "No_Collector_Number"
    · rw [if_pos hc] at h
      cases hid : alistFind? (photoDataStage obs pe lu) "id" with
      | none => rw [hid] at h; cases h
      | some v =>
        rw [hid] at h
        rw [Except.ok.injEq, Prod.mk.injEq] at h
        obtain ⟨h1, h2⟩ := h
        exact Or.inl ⟨hc, h1.symm, v, rfl, h2.symm⟩
    · rw [if_neg hc] at h
      have hcoll : alistFind? (photoDataStage obs pe lu) "collector_number" =
          some (JVal.s (retrieve_collector_number obs)) :=
        alistFind?_set_self _ _ _
      rw [hcoll] at h
      rw [Except.ok.injEq, Prod.mk.injEq] at h
      obtain ⟨h1, h2⟩ := h
      refine Or.inr ⟨hc,
        (retrieve_image_letter m (retrieve_collector_number obs)).2, ?_, h2.symm⟩
      rw [← h1]

theorem goodMap_nil : goodMap [] := fun _ _ h => nomatch h

theorem nextLetterCode_ge {m : CNMap} {cn : String} (hg : goodMap m) :
    65 ≤ nextLetterCode m cn := by
  unfold nextLetterCode
  cases hf : alistFind? m cn with
  | none => exact Nat.le_refl 65
  | some c0 => exact Nat.le_succ_of_le (hg cn c0 hf)

theorem nextLetterCode_eq {m : CNMap} {cn : String} (hg : goodMap m) :
    nextLetterCode m cn = 65 + cnCount m cn := by
  unfold nextLetterCode cnCount
  cases hf : alistFind? m cn with
  | none => rfl
  | some c0 =>
    have h1 := hg cn c0 hf
    show c0 + 1 = 65 + (c0 - 64)
    omega

theorem goodMap_set {m : CNMap} {cn : String} {code : Nat} (hg : goodMap m)
    (hc : 65 ≤ code) : goodMap (alistSet m cn code) := by
  intro cn' c' hf
  by_cases he : cn' = cn
  · subst he
    rw [alistFind?_set_self] at hf
    cases hf
    exact hc
  · rw [alistFind?_set_ne m cn cn' code he] at hf
    exact hg cn' c' hf

theorem cnCount_set_next {m : CNMap} {cn : String} (hg : goodMap m) :
    cnCount (alistSet m cn (nextLetterCode m cn)) cn = cnCount m cn + 1 := by
  have h2 : cnCount (alistSet m cn (nextLetterCode m cn)) cn =
      nextLetterCode m cn - 64 := by
    unfold cnCount
    rw [alistFind?_set_self]
  rw [h2, nextLetterCode_eq hg]
  omega

theorem cnCount_set_ne {m : CNMap} {cn cn' : String} {v : Nat}
    (hne : cn' ≠ cn) : cnCount (alistSet m cn v) cn' = cnCount m cn' := by
  unfold cnCount
  rw [alistFind?_set_ne m cn cn' v hne]

theorem groupIdents_nil (cn : String) : groupIdents cn [] = [] := rfl

theorem groupIdents_cons (cn : String) (d : Dict) (ds : List Dict) :
    groupIdents cn (d :: ds) =
      (if alistFind? d "collector_number" = some (JVal.s cn) then
        (alistFind? d "photo_identifier").toList
      else []) ++ groupIdents cn ds := by
  unfold groupIdents
  rw [List.filterMap_cons]
  by_cases hc : alistFind? d "collector_number" = some (JVal.s cn)
  · rw [if_pos hc, if_pos hc]
    cases alistFind? d "photo_identifier" <;> rfl
  · rw [if_neg hc, if_neg hc]
    rfl

theorem groupIdents_append (cn : String) (xs ys : List Dict) :
    groupIdents cn (xs ++ ys) = groupIdents cn xs ++ groupIdents cn ys := by
  unfold groupIdents
  exact List.filterMap_append xs ys _

theorem lettersList_zero (a : Nat) : lettersList a 0 = [] := rfl

theorem lettersList_one (a : Nat) : lettersList a 1 = [65 + a] := by
  unfold lettersList
  rw [show List.range 1 = [0] by decide]
  simp

theorem lettersList_append (a la lb : Nat) :
    lettersList a la ++ lettersList (a + la) lb = lettersList a (la + lb) := by
  unfold lettersList
  rw [List.range_add, List.map_append, List.map_map]
  congr 1
  apply List.map_congr_left
  intro i _
  simp only [Function.comp_apply]
  omega

/-- Per-photo invariant step: a successful iteration keeps the letter map
well formed, stamps the record with its observation's collector number, a
photo identifier and a string original_size_url, and extends exactly the
letter sequence of its own (non-sentinel) collector number by one. -/
theorem processPhoto_invariant {m : CNMap} {col_num : String} {obs : Obs}
    {pe : PhotoEntry} {m' : CNMap} {d : Dict} (hg : goodMap m)
    (hcol : col_num = retrieve_collector_number obs)
    (h : processPhoto m col_num obs pe = Except.ok (m', d)) :
    goodMap m' ∧
    (alistFind? d "collector_number" =
        some (JVal.s (retrieve_collector_number obs)) ∧
      (alistFind? d "photo_identifier").isSome = true ∧
      ∃ u, alistFind? d "original_size_url" = some (JVal.s u)) ∧
    ∀ cn, cn ≠ "No_Collector_Number" →
      ∃ len, cnCount m' cn = cnCount m cn + len ∧
        groupIdents cn [d] = (lettersList (cnCount m cn) len).map JVal.letter := by
  obtain ⟨lu, _, hcase⟩ := processPhoto_ok_elim h
  have hne1 : ("collector_number" : String) ≠ "photo_identifier" := by decide
  have hne2 : ("original_size_url" : String) ≠ "photo_identifier" := by decide
  have hne3 : ("original_size_url" : String) ≠ "collector_number" := by decide
  rcases hcase with ⟨hcn, hm, v, _, hd⟩ | ⟨hcn, code, hril, hd⟩
  · -- sentinel branch: identifier is the raw id, map untouched
    subst hm
    have hcoll : alistFind? d "collector_number" =
        some (JVal.s (retrieve_collector_number obs)) := by
      rw [hd, alistFind?_set_ne _ _ _ _ hne1]
      exact alistFind?_set_self _ _ _
    have hrcn : retrieve_collector_number obs = "No_Collector_Number" := by
      rw [← hcol]
      exact hcn
    refine ⟨hg, ⟨hcoll, ?_, ?_⟩, ?_⟩
    · rw [hd, alistFind?_set_self]
      rfl
    · refine ⟨pyReplace lu "large" "original", ?_⟩
      rw [hd, alistFind?_set_ne _ _ _ _ hne2]
      unfold photoDataStage
      rw [alistFind?_set_ne _ _ _ _ hne3]
      exact alistFind?_set_self _ _ _
    · intro cn hcnne
      refine ⟨0, by omega, ?_⟩
      rw [groupIdents_cons, groupIdents_nil, lettersList_zero]
      have : ¬(alistFind? d "collector_number" = some (JVal.s cn)) := by
        rw [hcoll, hrcn]
        intro hx
        exact hcnne (JVal.s.injEq _ _ ▸ (Option.some.injEq _ _ ▸ hx)).symm
      rw [if_neg this]
      rfl
  · -- letter branch: identifier is the next letter of this collector number
    have hrcn : retrieve_collector_number obs ≠ "No_Collector_Number" := by
      rw [← hcol]
      exact hcn
    rw [retrieve_image_letter_spec] at hril
    have hm' : m' = alistSet m (retrieve_collector_number obs)
        (nextLetterCode m (retrieve_collector_number obs)) :=
      (congrArg Prod.fst hril).symm
    have hcode : code = nextLetterCode m (retrieve_collector_number obs) :=
      (congrArg Prod.snd hril).symm
    have hcoll : alistFind? d "collector_number" =
        some (JVal.s (retrieve_collector_number obs)) := by
      rw [hd, alistFind?_set_ne _ _ _ _ hne1]
      exact alistFind?_set_self _ _ _
    refine ⟨?_, ⟨hcoll, ?_, ?_⟩, ?_⟩
    · rw [hm']
      exact goodMap_set hg (nextLetterCode_ge hg)
    · rw [hd, alistFind?_set_self]
      rfl
    · refine ⟨pyReplace lu "large" "original", ?_⟩
      rw [hd, alistFind?_set_ne _ _ _ _ hne2]
      unfold photoDataStage
      rw [alistFind?_set_ne _ _ _ _ hne3]
      exact alistFind?_set_self _ _ _
    · intro cn hcnne
      by_cases he : cn = retrieve_collector_number obs
      · subst he
        refine ⟨1, ?_, ?_⟩
        · rw [hm', cnCount_set_next hg]
        · rw [groupIdents_cons, groupIdents_nil, if_pos hcoll, hd,
            alistFind?_set_self, lettersList_one]
          simp only [Option.toList_some, List.map_cons, List.map_nil,
            List.append_nil, List.cons.injEq, and_true]
          rw [hcode, nextLetterCode_eq hg]
      · refine ⟨0, ?_, ?_⟩
        · rw [hm', cnCount_set_ne he]
          omega
        · rw [groupIdents_cons, groupIdents_nil, lettersList_zero]
          have : ¬(alistFind? d "collector_number" = some (JVal.s cn)) := by
            rw [hcoll]
            intro hx
            exact he (JVal.s.injEq _ _ ▸ (Option.some.injEq _ _ ▸ hx)).symm
          rw [if_neg this]
          rfl

/-- Invariant over the inner photo loop. -/
theorem processPhotos_invariant {m : CNMap} {col_num : String} {obs : Obs}
    {ps : List PhotoEntry} {m' : CNMap} {ds : List Dict} (hg : goodMap m)
    (hcol : col_num = retrieve_collector_number obs)
    (h : processPhotos m col_num obs ps = Except.ok (m', ds)) :
    goodMap m' ∧
    (∀ d ∈ ds, alistFind? d "collector_number" =
        some (JVal.s (retrieve_collector_number obs)) ∧
      (alistFind? d "photo_identifier").isSome = true ∧
      ∃ u, alistFind? d "original_size_url" = some (JVal.s u)) ∧
    ∀ cn, cn ≠ "No_Collector_Number" →
      ∃ len, cnCount m' cn = cnCount m cn + len ∧
        groupIdents cn ds = (lettersList (cnCount m cn) len).map JVal.letter := by
  induction ps generalizing m m' ds with
  | nil =>
    unfold processPhotos at h
    rw [Except.ok.injEq, Prod.mk.injEq] at h
    obtain ⟨h1, h2⟩ := h
    subst h1
    subst h2
    refine ⟨hg, by simp, fun cn hcn => ⟨0, by omega, ?_⟩⟩
    rw [groupIdents_nil, lettersList_zero]
    rfl
  | cons pe rest ih =>
    unfold processPhotos at h
    cases h1 : processPhoto m col_num obs pe with
    | error e => rw [h1] at h; cases h
    | ok r =>
      obtain ⟨m1, d⟩ := r
      rw [h1] at h
      simp only at h
      cases h2 : processPhotos m1 col_num obs rest with
      | error e => rw [h2] at h; cases h
      | ok r2 =>
        obtain ⟨m2, ds2⟩ := r2
        rw [h2] at h
        rw [Except.ok.injEq, Prod.mk.injEq] at h
        obtain ⟨hm2, hds⟩ := h
        subst hm2
        subst hds
        obtain ⟨hg1, hrec1, hcnt1⟩ := processPhoto_invariant hg hcol h1
        obtain ⟨hg2, hrec2, hcnt2⟩ := ih hg1 h2
        refine ⟨hg2, ?_, ?_⟩
        · intro d0 hd0
          rcases List.mem_cons.mp hd0 with he | hmem
          · subst he
            exact hrec1
          · exact hrec2 d0 hmem
        · intro cn hcn
          obtain ⟨l1, hc1, hgr1⟩ := hcnt1 cn hcn
          obtain ⟨l2, hc2, hgr2⟩ := hcnt2 cn hcn
          refine ⟨l1 + l2, by omega, ?_⟩
          rw [show (d :: ds2) = [d] ++ ds2 from rfl, groupIdents_append,
            hgr1, hgr2, hc1, ← List.map_append, lettersList_append]

/-- Invariant over one observation. -/
theorem processObservation_invariant {m : CNMap} {obs : Obs} {m' : CNMap}
    {ds : List Dict} (hg : goodMap m)
    (h : processObservation m obs = Except.ok (m', ds)) :
    goodMap m' ∧
    (∀ d ∈ ds, alistFind? d "collector_number" =
        some (JVal.s (retrieve_collector_number obs)) ∧
      (alistFind? d "photo_identifier").isSome = true ∧
      ∃ u, alistFind? d "original_size_url" = some (JVal.s u)) ∧
    ∀ cn, cn ≠ "No_Collector_Number" →
      ∃ len, cnCount m' cn = cnCount m cn + len ∧
        groupIdents cn ds = (lettersList (cnCount m cn) len).map JVal.letter :=
  processPhotos_invariant hg rfl h

/-- Invariant over the whole resolver run. -/
theorem resolveAll_invariant {m : CNMap} {obsList : List Obs} {m' : CNMap}
    {imgs : List Dict} (hg : goodMap m)
    (h : resolveAll m obsList = Except.ok (m', imgs)) :
    goodMap m' ∧
    (∀ d ∈ imgs, (∃ cnv, alistFind? d "collector_number" =
        some (JVal.s cnv)) ∧
      (alistFind? d "photo_identifier").isSome = true ∧
      ∃ u, alistFind? d "original_size_url" = some (JVal.s u)) ∧
    ∀ cn, cn ≠ "No_Collector_Number" →
      ∃ len, cnCount m' cn = cnCount m cn + len ∧
        groupIdents cn imgs = (lettersList (cnCount m cn) len).map JVal.letter := by
  induction obsList generalizing m m' imgs with
  | nil =>
    unfold resolveAll at h
    rw [Except.ok.injEq, Prod.mk.injEq] at h
    obtain ⟨h1, h2⟩ := h
    subst h1
    subst h2
    refine ⟨hg, by simp, fun cn hcn => ⟨0, by omega, ?_⟩⟩
    rw [groupIdents_nil, lettersList_zero]
    rfl
  | cons o rest ih =>
    unfold resolveAll at h
    cases h1 : processObservation m o with
    | error e => rw [h1] at h; cases h
    | ok r =>
      obtain ⟨m1, ds⟩ := r
      rw [h1] at h
      simp only at h
      cases h2 : resolveAll m1 rest with
      | error e => rw [h2] at h; cases h
      | ok r2 =>
        obtain ⟨m2, ds2⟩ := r2
        rw [h2] at h
        rw [Except.ok.injEq, Prod.mk.injEq] at h
        obtain ⟨hm2, hds⟩ := h
        subst hm2
        subst hds
        obtain ⟨hg1, hrec1, hcnt1⟩ := processObservation_invariant hg h1
        obtain ⟨hg2, hrec2, hcnt2⟩ := ih hg1 h2
        refine ⟨hg2, ?_, ?_⟩
        · intro d0 hd0
          rcases List.mem_append.mp hd0 with hmem | hmem
          · obtain ⟨hcoll, hident, hurl⟩ := hrec1 d0 hmem
            exact ⟨⟨retrieve_collector_number o, hcoll⟩, hident, hurl⟩
          · exact hrec2 d0 hmem
        · intro cn hcn
          obtain ⟨l1, hc1, hgr1⟩ := hcnt1 cn hcn
          obtain ⟨l2, hc2, hgr2⟩ := hcnt2 cn hcn
          refine ⟨l1 + l2, by omega, ?_⟩
          rw [groupIdents_append, hgr1, hgr2, hc1, ← List.map_append,
            lettersList_append]

/-! Claim theorems. -/

/-- C2 (amended): for every record a successful photo-loop iteration
produces, `original_size_url` is the record's `large_url` with every
occurrence of "large" replaced by "original"; when `large_url` is absent
from the merged photo fields the result is the empty string (the argument
`u` is then ""). -/
theorem c2_original_size_url_replace_all {m : CNMap} {col_num : String}
    {obs : Obs} {pe : PhotoEntry} {m' : CNMap} {d : Dict}
    (h : processPhoto m col_num obs pe = Except.ok (m', d)) (u : String)
    (hu : alistFind? (mergedPhotoData pe) "large_url" = some (JVal.s u) ∨
      (alistFind? (mergedPhotoData pe) "large_url" = none ∧ u = "")) :
    alistFind? d "original_size_url" =
      some (JVal.s (pyReplace u "large" "original")) := by
  obtain ⟨lu, hlu, hcase⟩ := processPhoto_ok_elim h
  have hne2 : ("original_size_url" : String) ≠ "photo_identifier" := by decide
  have hne3 : ("original_size_url" : String) ≠ "collector_number" := by decide
  have hlu2 : lu = u := by
    unfold largeUrlString alistGet at hlu
    rcases hu with hu | ⟨hu, rfl⟩
    · rw [hu] at hlu
      simp only [Option.getD_some] at hlu
      rw [Except.ok.injEq] at hlu
      exact hlu.symm
    · rw [hu] at hlu
      simp only [Option.getD_none] at hlu
      rw [Except.ok.injEq] at hlu
      exact hlu.symm
  subst hlu2
  rcases hcase with ⟨_, _, v, _, hd⟩ | ⟨_, code, _, hd⟩ <;>
  · rw [hd, alistFind?_set_ne _ _ _ _ hne2]
    unfold photoDataStage
    rw [alistFind?_set_ne _ _ _ _ hne3]
    exact alistFind?_set_self _ _ _

/-- C2 witness: a concrete run of the photo loop on a photo whose
large_url is "x/large.jpg". -/
theorem c2_original_size_url_witness :
    alistFind? c2wd "original_size_url" =
      some (JVal.s (pyReplace "x/large.jpg" "large" "original")) :=
  c2_original_size_url_replace_all
    (show processPhoto [] "No_Collector_Number" c2wobs c2wpe =
      Except.ok ([], c2wd) by decide)
    "x/large.jpg" (Or.inl (by decide))

/-- C2 counterexample to the claim as stated: on a large_url containing
"large" twice, the code replaces both occurrences, not just the first, so
the produced `original_size_url` differs from the spec's
first-occurrence-only replacement. -/
theorem c2_counterexample :
    (photoRecordOf [] (retrieve_collector_number c2obs) c2obs c2pe).bind
        (fun d => alistFind? d "original_size_url") =
      some (JVal.s "https://host/photos/original/original.jpg") ∧
    replaceFirstSpec "https://host/photos/large/large.jpg" "large"
        "original" = "https://host/photos/original/large.jpg" ∧
    ("https://host/photos/original/original.jpg" : String) ≠
      "https://host/photos/original/large.jpg" := by decide

/-- C4: in a successful photo-loop iteration called (as in the source)
with `col_num = retrieve_collector_number obs`: when the observation's
collector number is the sentinel, the photo identifier is the raw `id` of
the merged photo fields; otherwise it is the next unused letter of that
collector number, which is 'A' (code 65) when the collector number has no
letters yet. -/
theorem c4_photo_identifier_rule {m : CNMap} {obs : Obs} {pe : PhotoEntry}
    {m' : CNMap} {d : Dict}
    (h : processPhoto m (retrieve_collector_number obs) obs pe =
      Except.ok (m', d)) :
    (retrieve_collector_number obs = "No_Collector_Number" →
      ∃ v, alistFind? (mergedPhotoData pe) "id" = some v ∧
        alistFind? d "photo_identifier" = some v) ∧
    (retrieve_collector_number obs ≠ "No_Collector_Number" →
      alistFind? d "photo_identifier" =
        some (JVal.letter (nextLetterCode m (retrieve_collector_number obs))) ∧
      (alistFind? m (retrieve_collector_number obs) = none →
        nextLetterCode m (retrieve_collector_number obs) = 65)) := by
  obtain ⟨lu, _, hcase⟩ := processPhoto_ok_elim h
  have hne4 : ("id" : String) ≠ "collector_number" := by decide
  have hne5 : ("id" : String) ≠ "original_size_url" := by decide
  constructor
  · intro hsent
    rcases hcase with ⟨_, _, v, hid, hd⟩ | ⟨hcn, _, _, _⟩
    · refine ⟨v, ?_, ?_⟩
      · unfold photoDataStage at hid
        rw [alistFind?_set_ne _ _ _ _ hne4, alistFind?_set_ne _ _ _ _ hne5]
          at hid
        exact hid
      · rw [hd]
        exact alistFind?_set_self _ _ _
    · exact absurd hsent hcn
  · intro hnsent
    rcases hcase with ⟨hcn, _, _, _⟩ | ⟨_, code, hril, hd⟩
    · exact absurd hcn hnsent
    · rw [retrieve_image_letter_spec] at hril
      have hcode : code = nextLetterCode m (retrieve_collector_number obs) :=
        (congrArg Prod.snd hril).symm
      refine ⟨?_, ?_⟩
      · rw [hd, alistFind?_set_self, hcode]
      · intro hnone
        unfold nextLetterCode
        rw [hnone]

/-- C4 witness: first photo of a concrete observation with collector
number "AB 12" gets letter 'A' (code 65). -/
theorem c4_photo_identifier_witness :
    alistFind? wD1 "photo_identifier" =
      some (JVal.letter (nextLetterCode [] (retrieve_collector_number wObs))) ∧
    nextLetterCode [] (retrieve_collector_number wObs) = 65 := by
  have h := (c4_photo_identifier_rule
    (show processPhoto [] (retrieve_collector_number wObs) wObs wPhoto1 =
      Except.ok ([("AB_12", 65)], wD1) by decide)).2 (by decide)
  exact ⟨h.1, h.2 rfl⟩

/-- The loop of `retrieve_collector_number` is a first-match search. -/
theorem retrieve_collector_number_fields_eq (fs : List ObsField) :
    retrieve_collector_number_fields fs =
      match fs.find? (fun g => fieldName g == "Collector Number") with
      | some g => pyReplace (g.value.getD "No_Collector_Number") " " "_"
      | none => "No_Collector_Number" := by
  induction fs with
  | nil => rfl
  | cons f rest ih =>
    unfold retrieve_collector_number_fields
    by_cases hf : fieldName f = "Collector Number"
    · rw [if_pos hf]
      have hb : (fieldName f == "Collector Number") = true := by simp [hf]
      simp only [List.find?_cons, hb]
    · rw [if_neg hf]
      have hb : (fieldName f == "Collector Number") = false := by simp [hf]
      simp only [List.find?_cons, hb]
      exact ih

/-- C6: the collector number is the value of the first entry of
`observation_field_values` whose nested field name is "Collector Number",
with every space replaced by an underscore; when no entry matches, or the
list is absent altogether, it is the sentinel "No_Collector_Number". -/
theorem c6_collector_number_extraction (obs : Obs) :
    ((obs.observation_field_values.getD []).find?
        (fun g => fieldName g == "Collector Number") = none →
      retrieve_collector_number obs = "No_Collector_Number") ∧
    (obs.observation_field_values = none →
      retrieve_collector_number obs = "No_Collector_Number") ∧
    ∀ g v,
      (obs.observation_field_values.getD []).find?
          (fun g2 => fieldName g2 == "Collector Number") = some g →
      g.value = some v →
      retrieve_collector_number obs = pyReplace v " " "_" := by
  refine ⟨?_, ?_, ?_⟩
  · intro hnone
    unfold retrieve_collector_number
    rw [retrieve_collector_number_fields_eq, hnone]
  · intro habs
    unfold retrieve_collector_number
    rw [habs]
    rfl
  · intro g v hg hv
    unfold retrieve_collector_number
    rw [retrieve_collector_number_fields_eq, hg]
    show pyReplace (g.value.getD "No_Collector_Number") " " "_" =
      pyReplace v " " "_"
    rw [hv, Option.getD_some]

/-- C6 witness: the first matching field of `wObs` has value "AB 12", so
the collector number is "AB_12". -/
theorem c6_collector_number_witness :
    retrieve_collector_number wObs = pyReplace "AB 12" " " "_" :=
  (c6_collector_number_extraction wObs).2.2 wField "AB 12" (by decide) rfl

theorem lettersList_length (a len : Nat) : (lettersList a len).length = len := by
  simp [lettersList]

theorem lettersList_nodup (a len : Nat) : (lettersList a len).Nodup := by
  unfold lettersList
  exact List.Nodup.map (fun i j hij => by omega) (List.nodup_range len)

/-- C3 (amended): letter identifiers within any non-sentinel collector
number group are pairwise distinct over any full resolver run started on
the empty letter map. -/
theorem c3_nonsentinel_idents_nodup {obsList : List Obs} {m' : CNMap}
    {imgs : List Dict} (h : resolveAll [] obsList = Except.ok (m', imgs))
    (cn : String) (hcn : cn ≠ "No_Collector_Number") :
    (groupIdents cn imgs).Nodup := by
  obtain ⟨_, _, hcnt⟩ := resolveAll_invariant goodMap_nil h
  obtain ⟨len, _, hgr⟩ := hcnt cn hcn
  rw [hgr]
  exact List.Nodup.map (fun a b hab => by injection hab) (lettersList_nodup _ _)

/-- C3 witness: the two letters of collector number "AB_12" in a concrete
run are distinct. -/
theorem c3_nonsentinel_idents_witness : (groupIdents "AB_12" wImgs).Nodup :=
  c3_nonsentinel_idents_nodup
    (show resolveAll [] [wObs] = Except.ok (wMap, wImgs) by decide)
    "AB_12" (by decide)

/-- C3 counterexample to the claim as stated: two observations without a
collector number whose photos share raw id 5 produce two records in the
sentinel group with the same photo identifier, so identifiers in the
sentinel group are not pairwise distinct. -/
theorem c3_counterexample :
    resolveAll [] [c3obs, c3obs] = Except.ok ([], [c3d, c3d]) ∧
    ¬ (groupIdents "No_Collector_Number" [c3d, c3d]).Nodup := by decide

/-- C5: over any full resolver run started on the empty letter map, every
group identifier of a non-sentinel collector number is a letter, and the
letter code points are exactly 65, 66, ... ('A', 'B', ...) in encounter
order, hence strictly increasing. -/
theorem c5_letters_strictly_increasing {obsList : List Obs} {m' : CNMap}
    {imgs : List Dict} (h : resolveAll [] obsList = Except.ok (m', imgs))
    (cn : String) (hcn : cn ≠ "No_Collector_Number") :
    groupIdents cn imgs = (lettersFor cn imgs).map JVal.letter ∧
    lettersFor cn imgs =
      (List.range (lettersFor cn imgs).length).map (fun i => 65 + i) ∧
    (lettersFor cn imgs).Pairwise (· < ·) := by
  obtain ⟨_, _, hcnt⟩ := resolveAll_invariant goodMap_nil h
  obtain ⟨len, _, hgr⟩ := hcnt cn hcn
  have h0 : cnCount ([] : CNMap) cn = 0 := rfl
  rw [h0] at hgr
  have hl : lettersFor cn imgs = lettersList 0 len := by
    unfold lettersFor
    rw [hgr, List.filterMap_map]
    have : (fun v => match v with | JVal.letter c => some c | _ => none) ∘
        JVal.letter = some := rfl
    rw [this, List.filterMap_some]
  refine ⟨?_, ?_, ?_⟩
  · rw [hgr, hl]
  · rw [hl, lettersList_length]
    unfold lettersList
    apply List.map_congr_left
    intro i _
    omega
  · rw [hl]
    unfold lettersList
    exact List.Pairwise.map _ (fun a b hab => by omega)
      (List.pairwise_lt_range len)

/-- C5 witness: a concrete run assigning letters 'A','B' to collector
number "AB_12". -/
theorem c5_letters_witness :
    groupIdents "AB_12" wImgs = (lettersFor "AB_12" wImgs).map JVal.letter ∧
    lettersFor "AB_12" wImgs =
      (List.range (lettersFor "AB_12" wImgs).length).map (fun i => 65 + i) ∧
    (lettersFor "AB_12" wImgs).Pairwise (· < ·) :=
  c5_letters_strictly_increasing
    (show resolveAll [] [wObs] = Except.ok (wMap, wImgs) by decide)
    "AB_12" (by decide)

/-- C7: when `observations.csv` is missing the program reports the
condition and exits at once, with an empty effect trace: no network GET,
no file write, no download. -/
theorem c7_missing_input_no_effects (env : Env)
    (h : env.observations_csv = none) :
    (runProgram env).outcome = Outcome.missingInputExit ∧
    (runProgram env).effects = [] := by
  unfold runProgram
  rw [h]
  exact ⟨rfl, rfl⟩

/-- C7 witness: a concrete environment with the input file missing. -/
theorem c7_missing_input_witness :
    (runProgram c7env).outcome = Outcome.missingInputExit ∧
    (runProgram c7env).effects = [] :=
  c7_missing_input_no_effects c7env rfl

/-- C8: every resolver-produced record carries a string collector number,
a photo identifier and a string original_size_url, and the download loop
fetches `{collector_number}_{photo_identifier}.jpg` inside the images
directory exactly when that url is non-empty, doing nothing otherwise. -/
theorem c8_download_rule {obsList : List Obs} {m' : CNMap}
    {imgs : List Dict} (h : resolveAll [] obsList = Except.ok (m', imgs))
    {d : Dict} (hd : d ∈ imgs) :
    ∃ cnv pid u, alistFind? d "collector_number" = some (JVal.s cnv) ∧
      alistFind? d "photo_identifier" = some pid ∧
      alistFind? d "original_size_url" = some (JVal.s u) ∧
      fetchEffect d = (if u = "" then []
        else [Effect.download u
          ("images/" ++ cnv ++ "_" ++ pyFormat pid ++ ".jpg")]) := by
  obtain ⟨_, hrec, _⟩ := resolveAll_invariant goodMap_nil h
  obtain ⟨⟨cnv, hcoll⟩, hpid, u, hurl⟩ := hrec d hd
  obtain ⟨pid, hpid2⟩ := Option.isSome_iff_exists.mp hpid
  refine ⟨cnv, pid, u, hcoll, hpid2, hurl, ?_⟩
  unfold fetchEffect imageName alistGet
  rw [hurl, hcoll, hpid2]
  simp only [Option.getD_some]
  by_cases hu : u = ""
  · subst hu
    rw [if_neg (by simp [pyTruthy]), if_pos rfl]
  · rw [if_pos (by simp [pyTruthy, hu]), if_neg hu]
    rfl

/-- C8 witness: the concrete record of `c8obs` downloads its original-size
url to `images/No_Collector_Number_9.jpg`. -/
theorem c8_download_witness :
    ∃ cnv pid u, alistFind? c8d "collector_number" = some (JVal.s cnv) ∧
      alistFind? c8d "photo_identifier" = some pid ∧
      alistFind? c8d "original_size_url" = some (JVal.s u) ∧
      fetchEffect c8d = (if u = "" then []
        else [Effect.download u
          ("images/" ++ cnv ++ "_" ++ pyFormat pid ++ ".jpg")]) :=
  c8_download_rule
    (show resolveAll [] [c8obs] = Except.ok ([], [c8d]) by decide)
    (show c8d ∈ [c8d] by decide)

/-- A resolver run over observations with empty photo lists makes one GET
per id and yields no records. -/
theorem resolveRun_empty_photos (api : Int → Obs) (m : CNMap)
    (ids : List Int)
    (hempty : ∀ i, ((api i).observation_photos.getD []) = []) :
    resolveRun api m ids =
      (ids.map (fun i => Effect.networkGet (obsUrl i)),
       Except.ok (m, [])) := by
  induction ids with
  | nil => rfl
  | cons i rest ih =>
    unfold resolveRun
    have hobs : processObservation m (api i) = Except.ok (m, []) := by
      unfold processObservation
      rw [hempty i]
      rfl
    rw [hobs]
    simp only [ih]
    rfl

/-- C9: when every observation resolves to zero photos (in particular when
there are no ids at all), the projection step raises instead of producing
an empty 17-column table: the run crashes right after the per-id GETs,
before any download. -/
theorem c9_empty_resolution_crashes (env : Env) (ids : List Int)
    (hcsv : env.observations_csv = some ids)
    (hempty : ∀ i, ((env.api i).observation_photos.getD []) = []) :
    (runProgram env).outcome = Outcome.crashed metadataProjectionError ∧
    (runProgram env).effects =
      ids.map (fun i => Effect.networkGet (obsUrl i)) := by
  unfold runProgram
  rw [hcsv]
  simp only [resolveRun_empty_photos env.api [] ids hempty]
  rw [show buildMetadata [] = Except.error metadataProjectionError
    from by decide]
  exact ⟨rfl, rfl⟩

/-- C9 witness: one observation id whose API body has an empty photo
list. -/
theorem c9_empty_resolution_witness :
    (runProgram c9env).outcome = Outcome.crashed metadataProjectionError ∧
    (runProgram c9env).effects =
      [(1 : Int)].map (fun i => Effect.networkGet (obsUrl i)) :=
  c9_empty_resolution_crashes c9env [1] rfl (fun _ => rfl)

/-- When every record matches the group and carries an identifier, the
group identifiers are the records' identifiers in order. -/
theorem groupIdents_all_match {cn : String} {ds : List Dict}
    (hall : ∀ d ∈ ds,
      alistFind? d "collector_number" = some (JVal.s cn) ∧
      (alistFind? d "photo_identifier").isSome = true) :
    groupIdents cn ds =
      ds.map (fun d => (alistFind? d "photo_identifier").getD JVal.null) := by
  induction ds with
  | nil => rfl
  | cons d rest ih =>
    rw [groupIdents_cons, if_pos (hall d (List.mem_cons_self d rest)).1]
    obtain ⟨p, hp⟩ := Option.isSome_iff_exists.mp
      (hall d (List.mem_cons_self d rest)).2
    rw [hp, List.map_cons, hp,
      ih (fun d0 hd0 => hall d0 (List.mem_cons_of_mem d hd0))]
    rfl

theorem imageName_underscore (x : String) :
    "images/" ++ "" ++ "_" ++ x ++ ".jpg" = "images/_" ++ x ++ ".jpg" := by
  rw [show ("images/" ++ "" ++ "_" : String) = "images/_" from by decide]

/-- C10: a "Collector Number" field whose value is the empty string gives
collector number "" (not the sentinel), so the letter rule applies and the
image filenames of that observation are `images/_A.jpg`, `images/_B.jpg`,
... in photo order (letter map not yet holding ""). -/
theorem c10_empty_collector_string {m : CNMap} {obs : Obs} {f : ObsField}
    {m' : CNMap} {ds : List Dict}
    (hfind : (obs.observation_field_values.getD []).find?
        (fun g => fieldName g == "Collector Number") = some f)
    (hval : f.value = some "")
    (hg : goodMap m) (hm : alistFind? m "" = none)
    (h : processObservation m obs = Except.ok (m', ds)) :
    retrieve_collector_number obs = "" ∧
    ("" : String) ≠ "No_Collector_Number" ∧
    ds.map imageName = (List.range ds.length).map
      (fun i => "images/_" ++ String.singleton (Char.ofNat (65 + i)) ++
        ".jpg") := by
  have hrcn : retrieve_collector_number obs = "" := by
    unfold retrieve_collector_number
    rw [retrieve_collector_number_fields_eq, hfind]
    show pyReplace (f.value.getD "No_Collector_Number") " " "_" = ""
    rw [hval, Option.getD_some]
    decide
  have hne : ("" : String) ≠ "No_Collector_Number" := by decide
  obtain ⟨_, hrec, hcnt⟩ := processObservation_invariant hg h
  rw [hrcn] at hrec
  obtain ⟨len, _, hgr⟩ := hcnt "" hne
  have hc0 : cnCount m "" = 0 := by
    unfold cnCount
    rw [hm]
  rw [hc0] at hgr
  have hall : ∀ d ∈ ds,
      alistFind? d "collector_number" = some (JVal.s "") ∧
      (alistFind? d "photo_identifier").isSome = true :=
    fun d hd => ⟨(hrec d hd).1, (hrec d hd).2.1⟩
  have hmap : ds.map
        (fun d => (alistFind? d "photo_identifier").getD JVal.null) =
      (lettersList 0 len).map JVal.letter := by
    rw [← groupIdents_all_match hall, hgr]
  have hlen : ds.length = len := by
    have h2 := congrArg List.length hmap
    simpa [lettersList_length] using h2
  refine ⟨hrcn, hne, ?_⟩
  have hstep : ds.map imageName = ds.map (fun d =>
      "images/_" ++
        pyFormat ((alistFind? d "photo_identifier").getD JVal.null) ++
        ".jpg") := by
    apply List.map_congr_left
    intro d hd
    unfold imageName alistGet
    rw [(hall d hd).1]
    obtain ⟨p, hp⟩ := Option.isSome_iff_exists.mp (hall d hd).2
    rw [hp]
    simp only [Option.getD_some]
    exact imageName_underscore (pyFormat p)
  rw [hstep,
    show ds.map (fun d =>
      "images/_" ++
        pyFormat ((alistFind? d "photo_identifier").getD JVal.null) ++
        ".jpg") =
      (ds.map (fun d => (alistFind? d "photo_identifier").getD JVal.null)).map
        (fun v => "images/_" ++ pyFormat v ++ ".jpg")
      from by rw [List.map_map]; rfl,
    hmap, List.map_map, hlen]
  unfold lettersList
  rw [List.map_map]
  apply List.map_congr_left
  intro i _
  simp only [Function.comp_apply]
  rw [show 65 + 0 + i = 65 + i from by omega]
  rfl

/-- C10 witness: resolving `c10obs` (empty-string collector number, two
photos) from a fresh map names the downloads `images/_A.jpg` and
`images/_B.jpg`. -/
theorem c10_empty_collector_witness :
    c10ds.map imageName = ["images/_A.jpg", "images/_B.jpg"] ∧
    retrieve_collector_number c10obs = "" := by
  have h := c10_empty_collector_string
    (show (c10obs.observation_field_values.getD []).find?
        (fun g => fieldName g == "Collector Number") = some c10field
      by decide)
    (show c10field.value = some "" by decide)
    goodMap_nil
    (show alistFind? ([] : CNMap) "" = none from rfl)
    (show processObservation [] c10obs = Except.ok (c10m, c10ds) by decide)
  refine ⟨?_, h.1⟩
  rw [h.2.2]
  decide

/-- C1 (code bug): on a concrete complete run whose single photo supplies
every kept column, the in-memory metadata table has exactly 17 renamed
columns and one row per resolved photo, the run completes with a non-empty
effect trace (one GET and one download), yet no file-write effect exists
anywhere: the source builds and renames `images_df` but never writes the
metadata CSV it prints about. -/
theorem c1_no_metadata_file_written :
    (runProgram c1env).outcome = Outcome.completed ∧
    ((runProgram c1env).effects.all (fun e =>
      match e with
      | Effect.writeFile _ => false
      | _ => true)) = true ∧
    (runProgram c1env).effects ≠ [] ∧
    (metadataTableOf [c1obs]).map
      (fun t => (t.header.length, t.rows.length)) = some (17, 1) := by
  decide

end INat
